import Mathlib

/-!
Verification of the streak / timezone / reminder core of the habit-tracker
service.  The definitions below are shallow embeddings of the Python source:

* `update_habit_streaks`    — `HabitExecutionService._update_habit_streaks`
  (src/api/services/habit_execution_service.py, lines 168-240);
* `record_habit_execution`  — `HabitExecutionService.record_habit_execution`
  (same file, lines 287-415), with the database session modelled as an
  explicit `DBState` value and the commit outcome as a boolean parameter;
* `get_today_date_for_user` — `src/api/utils/date_utils.get_today_date_for_user`
  (identical code is inlined as `_get_today_date_for_user` in the service),
  with the IANA zone database modelled as an optional lookup
  `String → Option Zone`;
* `get_habits_for_notification` — `HabitRepository.get_habits_for_notification`
  (src/api/repositories/habit_repository.py, lines 189-240);
* `send_reminders` and `daily_maintenance` — the scheduler tasks in
  src/scheduler/tasks.py.

A central fact of this source shapes the embedding: the `User` model
(src/api/models/user.py) declares no `timezone` attribute, and no migration
adds one (migrations/ and alembic/ hold only env.py), although the resolver,
both scheduler queries and the user schemas all read it.  Attribute and
column lookups are therefore modelled against the faithful name lists
`user_model_attributes` and `habit_repository_method_names`, and a failed
lookup is the raised `AttributeError` (the error value of `PyError`) or, for
the raw SQL of the maintenance job, a failed statement that its blanket
handler rolls back.  The branches such a failure makes unreachable still
translate the rest of the source, fed by parameters (`stored_timezone`,
`habits_to_remind`) standing for what the missing read would have produced.

Dates and instants are modelled as `Int` (a calendar date is a day number,
an instant a second count); statuses, rows and errors are inductive types.
-/

namespace HabitTracker

/-- Execution statuses, from `HabitExecutionStatus` in
src/api/models/habit_execution.py. -/
inductive HabitExecutionStatus where
  | PENDING
  | DONE
  | NOT_DONE
deriving DecidableEq, Repr

/-- A row of the `users` table.  The model in src/api/models/user.py declares
`telegram_id`, `username`, `first_name`, `last_name`, `is_active` and
`is_bot_blocked` (plus the base `id` and timestamps).  It declares NO
`timezone` column, although the rest of the source reads one
(`user.timezone or "UTC"` in date_utils.py, `User.timezone` and
`users.timezone` in the repository and scheduler queries, a `timezone` field
in the Pydantic user schemas): those reads fail — see
`user_model_attributes`.  The row carries the declared fields the verified
core consumes. -/
structure User where
  id : Nat
  telegram_id : Nat
  is_active : Bool
  is_bot_blocked : Bool
deriving DecidableEq, Repr

/-- Attribute names a loaded `User` row exposes: the primary key and the
timestamp pair inherited from the declarative base (src/api/models/base.py),
the columns declared in src/api/models/user.py, and the `habits`
relationship.  `timezone` is not among them: no model column declares it, and
the migration directories contain only env.py, so nothing adds it to the
database schema either (the schema is generated from the model metadata).
Python attribute lookup on a user instance, `User.timezone` class-attribute
access, and SQL references to `users.timezone` succeed exactly for the names
here (the relationship is not a table column, but it is never referenced in
SQL by name). -/
def user_model_attributes : List String :=
  ["id", "created_at", "updated_at", "telegram_id", "username", "first_name",
   "last_name", "is_active", "is_bot_blocked", "habits"]

/-- A Python exception escaping the embedded code that is not one of the
service exception classes: an `AttributeError` naming the missing
attribute. -/
inductive PyError where
  | attributeError (attr : String)
deriving DecidableEq, Repr

/-- A row of the `habits` table, from src/api/models/habit.py.  The reminder
time is modelled as a minute count. -/
structure Habit where
  id : Nat
  user_id : Nat
  name : String
  time_to_remind : Nat
  is_active : Bool
  current_streak : Int
  max_streak : Int
deriving DecidableEq, Repr

/-- A row of the `habit_executions` table, from
src/api/models/habit_execution.py.  The table carries a uniqueness constraint
on `(habit_id, execution_date)`. -/
structure HabitExecution where
  habit_id : Nat
  execution_date : Int
  status : HabitExecutionStatus
deriving DecidableEq, Repr

/-- The persistent state the core reads and writes: the three tables. -/
structure DBState where
  users : List User
  habits : List Habit
  executions : List HabitExecution
deriving DecidableEq, Repr

/-- A timezone, reduced to what the core uses of it: the map from an absolute
instant to the local calendar date (`astimezone(...).date()` in Python). -/
structure Zone where
  localDate : Int → Int

/-- The zone constructed by `ZoneInfo("UTC")`: day number of the instant. -/
def utc_zone : Zone :=
  { localDate := fun t => t.fdiv 86400 }

/-- Shallow embedding of `get_today_date_for_user`
(src/api/utils/date_utils.py, lines 13-58; the same code is inlined as
`_get_today_date_for_user` in habit_execution_service.py, lines 82-127).
After taking the current instant, its next statement reads `user.timezone`
(date_utils.py line 30, service line 99) — a plain attribute access on the
loaded ORM row, placed before the `try` block, and the User model declares no
such attribute (`user_model_attributes`), so every call raises
`AttributeError` and the `ZoneInfoNotFoundError` handler below the read is
dead code.  The guarded branch translates what the rest of the function would
do were the column declared, with `stored_timezone` standing for the value
the read would produce: `or "UTC"` for a missing or empty string, the zone
lookup (`zone_db s = some z` for `ZoneInfo(s)` succeeding, `none` for
`ZoneInfoNotFoundError`, answered by `ZoneInfo("UTC")`), and the conversion
of the instant to the local calendar date. -/
def get_today_date_for_user (zone_db : String → Option Zone) (utc_now : Int)
    (user : User) (stored_timezone : Option String) : Except PyError Int :=
  if user_model_attributes.contains "timezone" then
    Except.ok
      (match zone_db (match stored_timezone with
                      | none => "UTC"
                      | some s => if s = "" then "UTC" else s) with
       | some user_timezone => user_timezone.localDate utc_now
       | none => utc_zone.localDate utc_now)
  else
    Except.error (PyError.attributeError "timezone")

/-- Lookup of a habit row by primary key (`BaseRepository.get_by_id`, and
`get_habit_by_id_for_update` which differs only by locking). -/
def findHabit (habits : List Habit) (habit_id : Nat) : Option Habit :=
  habits.find? (fun h => h.id == habit_id)

/-- Lookup of a user row by primary key (the `Habit.user` relationship join). -/
def findUser (users : List User) (user_id : Nat) : Option User :=
  users.find? (fun u => u.id == user_id)

/-- Lookup of the execution row for a `(habit_id, execution_date)` pair
(`HabitExecutionRepository.get_execution_by_habit_id_and_date`). -/
def findExecution (executions : List HabitExecution) (habit_id : Nat)
    (execution_date : Int) : Option HabitExecution :=
  executions.find? (fun e => e.habit_id == habit_id && e.execution_date == execution_date)

/-- The `EXISTS` subquery used by both scheduler queries: is there a `DONE`
execution row for this habit on this date. -/
def hasDoneExecution (executions : List HabitExecution) (habit_id : Nat)
    (execution_date : Int) : Bool :=
  executions.any (fun e =>
    e.habit_id == habit_id && e.status == HabitExecutionStatus.DONE
      && e.execution_date == execution_date)

/-- Effect on the executions table of committing the recorder session: the
existing row for the key, if any, had its status overwritten in place
(`existing_execution.status = execution_in.status`), otherwise a fresh row was
added.  Rows for other keys are untouched; the uniqueness constraint on the key
is preserved. -/
def upsertExecution (executions : List HabitExecution) (habit_id : Nat)
    (execution_date : Int) (status : HabitExecutionStatus) : List HabitExecution :=
  match findExecution executions habit_id execution_date with
  | some _ =>
      executions.map (fun e =>
        if e.habit_id == habit_id && e.execution_date == execution_date then
          { e with status := status }
        else e)
  | none => executions ++ [{ habit_id := habit_id, execution_date := execution_date, status := status }]

/-- Effect on the habits table of committing the mutated habit row: the row
with the same primary key is replaced. -/
def setHabitRow (habits : List Habit) (habit : Habit) : List Habit :=
  habits.map (fun h => if h.id == habit.id then habit else h)

/-- Shallow embedding of `HabitExecutionService._update_habit_streaks`
(src/api/services/habit_execution_service.py, lines 168-240).  The Python
method mutates the habit in place and returns the changed flag; here it
returns the flag together with the updated habit.  Branch structure and
condition order follow the source: the guard on `is_new_execution_for_today`,
then scenario A (`DONE`, increment unless the previous status was already
`DONE`, then raise `max_streak` if overtaken), scenario B (`NOT_DONE`, reset a
positive streak to zero), scenario C (`PENDING` after `DONE` with a positive
streak: first lower `max_streak` when it equals the pre-decrement
`current_streak`, then decrement `current_streak`). -/
def update_habit_streaks (habit : Habit) (new_execution_status : HabitExecutionStatus)
    (is_new_execution_for_today : Bool)
    (previous_execution_status : Option HabitExecutionStatus) : Bool × Habit :=
  if is_new_execution_for_today = false then
    (false, habit)
  else
    match new_execution_status with
    | HabitExecutionStatus.DONE =>
        if previous_execution_status ≠ some HabitExecutionStatus.DONE then
          (true,
            if habit.current_streak + 1 > habit.max_streak then
              { habit with
                  current_streak := habit.current_streak + 1
                  max_streak := habit.current_streak + 1 }
            else { habit with current_streak := habit.current_streak + 1 })
        else (false, habit)
    | HabitExecutionStatus.NOT_DONE =>
        if habit.current_streak > 0 then
          (true, { habit with current_streak := 0 })
        else (false, habit)
    | HabitExecutionStatus.PENDING =>
        if previous_execution_status = some HabitExecutionStatus.DONE
            ∧ habit.current_streak > 0 then
          (true,
            if habit.max_streak = habit.current_streak then
              { habit with
                  max_streak := habit.max_streak - 1
                  current_streak := habit.current_streak - 1 }
            else { habit with current_streak := habit.current_streak - 1 })
        else (false, habit)

/-- Error taxonomy of the recorder path: the exceptions the service raises
itself (`NotFoundException`, `ForbiddenException`, `BadRequestException`),
the surfaced commit failure, and `uncaughtAttributeError` — the Python
`AttributeError` that escapes `record_habit_execution` unhandled, raised by
the today-resolver at service line 322 before any of the service exception
classes can apply. -/
inductive RecordError where
  | habitNotFound
  | habitForbidden
  | habitNotActive
  | persistenceFailure
  | uncaughtAttributeError (attr : String)
deriving DecidableEq, Repr

/-- Commit phase of `record_habit_execution` (lines 376-415 of the service):
compute `is_today`, run the streak engine, stage the execution upsert and,
when the engine reports a change, the habit update, then commit.  `commit_ok`
models the outcome of `db_session.commit()`: on failure the session is rolled
back, so the returned state is the input state and the error is surfaced. -/
def commitRecord (st : DBState) (habit : Habit) (habit_id : Nat)
    (status : HabitExecutionStatus) (previous_status : Option HabitExecutionStatus)
    (target_date : Int) (today_user_date : Int) (commit_ok : Bool) :
    DBState × Except RecordError HabitExecution :=
  if commit_ok then
    ({ users := st.users
       habits :=
         if (update_habit_streaks habit status (target_date == today_user_date)
              previous_status).1 then
           setHabitRow st.habits
             (update_habit_streaks habit status (target_date == today_user_date)
               previous_status).2
         else st.habits
       executions := upsertExecution st.executions habit_id target_date status },
     Except.ok { habit_id := habit_id, execution_date := target_date, status := status })
  else
    (st, Except.error RecordError.persistenceFailure)

/-- Shallow embedding of `HabitExecutionService.record_habit_execution`
(src/api/services/habit_execution_service.py, lines 287-415).  Its first
statement (line 322) resolves the owner today via
`_get_today_date_for_user`; that resolver raises `AttributeError` on every
call (missing `User.timezone`, see `get_today_date_for_user`), the raise
precedes the `try` block at line 390, and nothing in the service catches it,
so the error propagates to the caller with no write performed.  The
`Except.ok` branch translates the rest of the source in its order: fetch the
habit by id (not found raises); check ownership (forbidden); check activity
(bad request); fetch the existing execution for the target date; if its
status already equals the requested one, return it with no write at all;
otherwise stage the upsert and the streak update and commit
(`commitRecord`). -/
def record_habit_execution (zone_db : String → Option Zone) (utc_now : Int)
    (st : DBState) (habit_id : Nat) (status : HabitExecutionStatus)
    (current_user : User) (stored_timezone : Option String)
    (execution_date_override : Option Int) (commit_ok : Bool) :
    DBState × Except RecordError HabitExecution :=
  match get_today_date_for_user zone_db utc_now current_user stored_timezone with
  | Except.error (PyError.attributeError a) =>
      (st, Except.error (RecordError.uncaughtAttributeError a))
  | Except.ok today_user_date =>
      match findHabit st.habits habit_id with
      | none => (st, Except.error RecordError.habitNotFound)
      | some habit =>
          if habit.user_id ≠ current_user.id then
            (st, Except.error RecordError.habitForbidden)
          else if habit.is_active = false then
            (st, Except.error RecordError.habitNotActive)
          else
            match findExecution st.executions habit_id
                (execution_date_override.getD today_user_date) with
            | some existing_execution =>
                if existing_execution.status = status then
                  (st, Except.ok existing_execution)
                else
                  commitRecord st habit habit_id status
                    (some existing_execution.status)
                    (execution_date_override.getD today_user_date)
                    today_user_date commit_ok
            | none =>
                commitRecord st habit habit_id status none
                  (execution_date_override.getD today_user_date)
                  today_user_date commit_ok

/-- A habit as created on user request: `current_streak` and `max_streak`
start at the column defaults of 0 (src/api/models/habit.py, the
`create_habit` path never sets them). -/
def newHabit (id user_id : Nat) (name : String) (time_to_remind : Nat) : Habit :=
  { id := id
    user_id := user_id
    name := name
    time_to_remind := time_to_remind
    is_active := true
    current_streak := 0
    max_streak := 0 }

/-- One step of the mutation alphabet of the two counters: either a same-day
status transition processed by the streak engine, or the bulk reset applied by
the maintenance job (`values(current_streak=0)` in scheduler/tasks.py). -/
inductive StreakOp where
  | update (new_status : HabitExecutionStatus)
      (previous_status : Option HabitExecutionStatus) (is_today : Bool)
  | maintenance_reset
deriving DecidableEq, Repr

/-- Application of one `StreakOp` to a habit row. -/
def applyStreakOp (habit : Habit) (op : StreakOp) : Habit :=
  match op with
  | StreakOp.update new_status previous_status is_today =>
      (update_habit_streaks habit new_status is_today previous_status).2
  | StreakOp.maintenance_reset => { habit with current_streak := 0 }

/-- Shallow embedding of `HabitRepository.get_habits_for_notification`
(src/api/repositories/habit_repository.py, lines 189-240).  Building the
statement evaluates `User.timezone == timezone` (line 229), a class-attribute
access on a model that declares no `timezone` attribute, so every call raises
`AttributeError` before any row is read (the test in
tests/api/test_scheduler_repository.py exercises exactly this call).  The
guarded branch translates the query the source means to run: active habits
joined to their owner on the users primary key (at most one matching row,
modelled by `findUser`), owner active, not bot-blocked and stored with the
given timezone string, reminder time equal to the target, and no `DONE`
execution row on the target date — with `stored_timezone` standing for the
values of the missing column, keyed by user id. -/
def get_habits_for_notification (stored_timezone : Nat → Option String)
    (st : DBState) (timezone : String) (target_time : Nat) (target_date : Int) :
    Except PyError (List Habit) :=
  if user_model_attributes.contains "timezone" then
    Except.ok (st.habits.filter (fun h =>
      h.is_active
        && (match findUser st.users h.user_id with
            | some u => u.is_active && !u.is_bot_blocked
                && stored_timezone u.id == some timezone
            | none => false)
        && h.time_to_remind == target_time
        && !hasDoneExecution st.executions h.id target_date))
  else
    Except.error (PyError.attributeError "timezone")

/-- Methods defined on `HabitRepository`, its own plus those inherited from
`BaseRepository` (src/api/repositories/habit_repository.py and
base_repository.py).  Python attribute lookup on the repository object
succeeds exactly for these names. -/
def habit_repository_method_names : List String :=
  ["create_habit", "get_habit_by_id_with_executions", "get_habit_by_id_for_update",
   "get_habits_by_user_id", "get_active_timezones", "get_habits_for_notification",
   "get_by_id", "get_by_filter_first_or_none", "get_multi", "get_multi_by_filter",
   "add", "create", "update", "remove"]

/-- One outbound reminder message: the chat it goes to and the batched habit
names it lists. -/
structure ReminderNotification where
  chat_id : Nat
  habit_names : List String
deriving DecidableEq, Repr

/-- Owner ids in order of first appearance among the habits to remind,
keeping only habits whose owner row exists and has a non-zero telegram id
(the `if habit.user and habit.user.telegram_id` filter); this is the
insertion order of the `defaultdict` in `send_reminders`. -/
def reminderUserIds (users : List User) (habits_to_remind : List Habit) : List Nat :=
  habits_to_remind.foldl
    (fun acc h =>
      match findUser users h.user_id with
      | some u =>
          if u.telegram_id ≠ 0 ∧ ¬ u.id ∈ acc then acc ++ [u.id] else acc
      | none => acc)
    []

/-- The grouping-and-batching loop of `send_reminders`
(src/scheduler/tasks.py, lines 59-80): habits are grouped by owning user and
one message per user is built, listing all of that user given habits. -/
def groupRemindersByUser (users : List User) (habits_to_remind : List Habit) :
    List ReminderNotification :=
  (reminderUserIds users habits_to_remind).filterMap (fun uid =>
    match findUser users uid with
    | some u =>
        some { chat_id := u.telegram_id
               habit_names :=
                 (habits_to_remind.filter (fun h => h.user_id == uid)).map Habit.name }
    | none => none)

/-- Shallow embedding of the reminder tick `send_reminders`
(src/scheduler/tasks.py, lines 28-103), returning the notifications the tick
emits.  The task fetches the due habits with
`habit_repo.get_habits_needing_notification(db_session=session)`; no method of
that name is defined on `HabitRepository` or `BaseRepository` (the defined
query is `get_habits_for_notification`, with a different signature), so the
attribute lookup raises `AttributeError`, the blanket `except Exception`
at the end of the task logs it, and the tick sends nothing.  The parameter
`habits_to_remind` stands for whatever the missing query would have returned;
it is only consumed by the (unreachable) grouping branch. -/
def send_reminders (st : DBState) (habits_to_remind : List Habit) :
    List ReminderNotification :=
  if habit_repository_method_names.contains "get_habits_needing_notification" then
    groupRemindersByUser st.users habits_to_remind
  else
    []

/-- Candidate test of the maintenance query (src/scheduler/tasks.py,
lines 131-150), as it would evaluate were the `users.timezone` column
present: the habit is active, has a positive streak, its owner row joins
(inner join on the users primary key), and the `NOT EXISTS` subquery for a
`DONE` execution dated `timezone(users.timezone, now())::date - 1` holds.
`local_today` gives the local calendar date of the tick instant in a named
zone, so that SQL expression is `local_today tz - 1`; `stored_timezone`
stands for the values of the missing column, keyed by user id.  When the
stored value is NULL the SQL comparison `execution_date = NULL` matches no
row, the `EXISTS` is false and its negation true, so such a habit passes the
subquery test unconditionally. -/
def maintenance_candidate (local_today : String → Int)
    (stored_timezone : Nat → Option String) (users : List User)
    (executions : List HabitExecution) (h : Habit) : Bool :=
  h.is_active && (h.current_streak > 0 : Bool)
    && (match findUser users h.user_id with
        | some u =>
            match stored_timezone u.id with
            | some tz => !hasDoneExecution executions h.id (local_today tz - 1)
            | none => true
        | none => false)

/-- Primary keys the candidate query of `daily_maintenance` would select
(`select(Habit.id) ... where(...)`). -/
def habit_ids_to_reset (local_today : String → Int)
    (stored_timezone : Nat → Option String) (st : DBState) : List Nat :=
  (st.habits.filter
    (maintenance_candidate local_today stored_timezone st.users st.executions)).map
    Habit.id

/-- Shallow embedding of the maintenance task `daily_maintenance`
(src/scheduler/tasks.py, lines 106-179).  The candidate SELECT embeds the raw
SQL fragment `timezone(users.timezone, now())::date - 1`; the users table has
no `timezone` column (schema generated from the model metadata, no migration
versions exist), so executing the statement fails, the blanket handler at
lines 174-179 logs the error and rolls back, and every run leaves the state
unchanged and resets zero rows.  The guarded branch translates what the
query and the bulk `current_streak = 0` update would do were the column
present. -/
def daily_maintenance (local_today : String → Int)
    (stored_timezone : Nat → Option String) (st : DBState) : DBState × Nat :=
  if user_model_attributes.contains "timezone" then
    (if (habit_ids_to_reset local_today stored_timezone st).isEmpty then
      (st, 0)
    else
      ({ users := st.users
         habits := st.habits.map (fun h =>
           if (habit_ids_to_reset local_today stored_timezone st).contains h.id then
             { h with current_streak := 0 }
           else h)
         executions := st.executions },
       (habit_ids_to_reset local_today stored_timezone st).length))
  else
    (st, 0)

/-- Example zone database for concrete evaluations: a short alias zone and one
real IANA name (UTC+5, the zone used in the repository test-suite). -/
def zdbEx : String → Option Zone := fun s =>
  if s = "Z" then some utc_zone
  else if s = "UTC" then some utc_zone
  else if s = "Asia/Yekaterinburg" then
    some { localDate := fun t => (t + 18000).fdiv 86400 }
  else none

/-- Example user for concrete evaluations. -/
def userEx : User :=
  { id := 1, telegram_id := 100, is_active := true, is_bot_blocked := false }

/-- Example habit with streaks `(3, 5)` for concrete evaluations. -/
def habitEx : Habit :=
  { id := 1, user_id := 1, name := "water", time_to_remind := 540,
    is_active := true, current_streak := 3, max_streak := 5 }

/-- Example state: one user, one habit, no executions. -/
def stEx : DBState :=
  { users := [userEx], habits := [habitEx], executions := [] }

/-- Example habit with streaks `(3, 3)`, for the undo evaluation. -/
def habitEx3 : Habit :=
  { id := 1, user_id := 1, name := "water", time_to_remind := 540,
    is_active := true, current_streak := 3, max_streak := 3 }

/-- Example state whose habit carries a `DONE` execution row for day 0. -/
def stEx3 : DBState :=
  { users := [userEx], habits := [habitEx3],
    executions := [{ habit_id := 1, execution_date := 0,
                     status := HabitExecutionStatus.DONE }] }

/-- Example habit owned by another user and archived, for the ordering
evaluation. -/
def habitExForeign : Habit :=
  { id := 1, user_id := 2, name := "other", time_to_remind := 540,
    is_active := false, current_streak := 0, max_streak := 0 }

/-- Example habit owned by the caller but archived, for the ordering
evaluation. -/
def habitExInactive : Habit :=
  { id := 2, user_id := 1, name := "mine", time_to_remind := 540,
    is_active := false, current_streak := 0, max_streak := 0 }

/-- Example state for the error-ordering evaluation. -/
def stEx10 : DBState :=
  { users := [userEx], habits := [habitExForeign, habitExInactive],
    executions := [] }

/-- Example habit that the maintenance contract would reset: active, positive
streak, nothing done yesterday. -/
def habitExMissed : Habit :=
  { id := 1, user_id := 1, name := "a", time_to_remind := 540,
    is_active := true, current_streak := 2, max_streak := 5 }

/-- Example habit with a zero streak, outside the maintenance contract. -/
def habitExZero : Habit :=
  { id := 2, user_id := 1, name := "b", time_to_remind := 540,
    is_active := true, current_streak := 0, max_streak := 4 }

/-- Example state for the maintenance evaluation. -/
def stExM : DBState :=
  { users := [userEx], habits := [habitExMissed, habitExZero],
    executions := [] }

/-- Invariant carried by the two counters of a habit row. -/
def StreakInv (h : Habit) : Prop :=
  0 ≤ h.current_streak ∧ h.current_streak ≤ h.max_streak

lemma streakInv_update (habit : Habit) (s : HabitExecutionStatus) (t : Bool)
    (prev : Option HabitExecutionStatus) (hinv : StreakInv habit) :
    StreakInv (update_habit_streaks habit s t prev).2 := by
  obtain ⟨h0, h1⟩ := hinv
  cases t <;> cases s <;>
    simp only [update_habit_streaks] <;>
    split_ifs <;> constructor <;> simp <;> omega

lemma streakInv_applyStreakOp (habit : Habit) (op : StreakOp)
    (hinv : StreakInv habit) : StreakInv (applyStreakOp habit op) := by
  cases op with
  | update s prev t => exact streakInv_update habit s t prev hinv
  | maintenance_reset =>
      obtain ⟨h0, h1⟩ := hinv
      exact ⟨le_refl 0, le_trans h0 h1⟩

lemma streakInv_foldl (ops : List StreakOp) (habit : Habit)
    (hinv : StreakInv habit) : StreakInv (ops.foldl applyStreakOp habit) := by
  induction ops generalizing habit with
  | nil => exact hinv
  | cons op rest ih => exact ih _ (streakInv_applyStreakOp habit op hinv)

/-- Claim C1: for every habit starting from creation with
`current_streak = max_streak = 0`, after every step of any sequence of
same-day status transitions applied by the streak-update logic (and after any
maintenance reset), `max_streak >= current_streak` holds.  The list `ops`
ranges over all sequences of engine transitions and maintenance resets, so
the state after any step of a longer sequence is the fold of the
corresponding prefix. -/
theorem streak_invariant_holds_after_every_step (id user_id : Nat)
    (name : String) (time_to_remind : Nat) (ops : List StreakOp) :
    (ops.foldl applyStreakOp (newHabit id user_id name time_to_remind)).current_streak ≤
      (ops.foldl applyStreakOp (newHabit id user_id name time_to_remind)).max_streak :=
  (streakInv_foldl ops _ ⟨le_refl 0, le_refl 0⟩).2

lemma get_today_date_for_user_raises (zone_db : String → Option Zone)
    (utc_now : Int) (user : User) (stored_timezone : Option String) :
    get_today_date_for_user zone_db utc_now user stored_timezone =
      Except.error (PyError.attributeError "timezone") := by
  unfold get_today_date_for_user
  rw [if_neg (by decide)]

lemma record_habit_execution_raises (zone_db : String → Option Zone)
    (utc_now : Int) (st : DBState) (habit_id : Nat)
    (status : HabitExecutionStatus) (current_user : User)
    (stored_timezone : Option String) (execution_date_override : Option Int)
    (commit_ok : Bool) :
    record_habit_execution zone_db utc_now st habit_id status current_user
        stored_timezone execution_date_override commit_ok =
      (st, Except.error (RecordError.uncaughtAttributeError "timezone")) := by
  unfold record_habit_execution
  rw [get_today_date_for_user_raises]

/-- Claim C2 (code evaluation): no `DONE` recording ever increments a streak.
The first statement of `record_habit_execution` (service line 322) resolves
the owner today, and that resolver reads the undeclared `user.timezone`
(service line 99, outside its `try`), so every call raises `AttributeError`
and returns with the state untouched — before the execution lookup, the
early-return check and the streak engine.  Two consecutive `DONE` recordings
therefore leave the habits table — and every `current_streak` in it —
exactly as it was, not changed by the claimed total of 1. -/
theorem record_done_crashes_without_increment (zone_db : String → Option Zone)
    (utc_now : Int) (st : DBState) (habit_id : Nat) (u : User)
    (stored_timezone : Option String) :
    record_habit_execution zone_db utc_now st habit_id
        HabitExecutionStatus.DONE u stored_timezone none true =
      (st, Except.error (RecordError.uncaughtAttributeError "timezone")) ∧
    (record_habit_execution zone_db utc_now
        (record_habit_execution zone_db utc_now st habit_id
          HabitExecutionStatus.DONE u stored_timezone none true).1
        habit_id HabitExecutionStatus.DONE u stored_timezone none true).1.habits =
      st.habits := by
  refine ⟨record_habit_execution_raises zone_db utc_now st habit_id
    HabitExecutionStatus.DONE u stored_timezone none true, ?_⟩
  simp [record_habit_execution_raises]

/-- Claim C3 (code evaluation): the `PENDING` undo decrement is unreachable.
Every record call raises the resolver `AttributeError` (missing
`User.timezone`) before the streak engine runs; concretely, in `stEx3`
(streaks `(3, 3)` and a `DONE` execution for day 0) recording `PENDING`
returns the error with the state — and both counters — untouched, instead of
decrementing to `(2, 2)`. -/
theorem record_pending_crashes_without_decrement (zone_db : String → Option Zone)
    (utc_now : Int) (st : DBState) (habit_id : Nat) (u : User)
    (stored_timezone : Option String) :
    record_habit_execution zone_db utc_now st habit_id
        HabitExecutionStatus.PENDING u stored_timezone none true =
      (st, Except.error (RecordError.uncaughtAttributeError "timezone")) ∧
    record_habit_execution zdbEx 0 stEx3 1 HabitExecutionStatus.PENDING userEx
        (some "Z") none true =
      (stEx3, Except.error (RecordError.uncaughtAttributeError "timezone")) :=
  ⟨record_habit_execution_raises zone_db utc_now st habit_id
      HabitExecutionStatus.PENDING u stored_timezone none true,
   record_habit_execution_raises zdbEx 0 stEx3 1 HabitExecutionStatus.PENDING
      userEx (some "Z") none true⟩

/-- Claim C4 (code evaluation): a backdated recording stores nothing.  The
claim says the execution row is stored or updated with the streaks left
unchanged; in the source the call raises the resolver `AttributeError`
(missing `User.timezone`, service line 322) before the execution lookup, so
for every override date and status the state — executions table included —
comes back exactly as it was and the error surfaces instead of a stored
row. -/
theorem record_backdated_crashes_stores_nothing (zone_db : String → Option Zone)
    (utc_now : Int) (st : DBState) (habit_id : Nat)
    (s : HabitExecutionStatus) (u : User) (stored_timezone : Option String)
    (d : Int) (commit_ok : Bool) :
    record_habit_execution zone_db utc_now st habit_id s u stored_timezone
        (some d) commit_ok =
      (st, Except.error (RecordError.uncaughtAttributeError "timezone")) ∧
    (record_habit_execution zone_db utc_now st habit_id s u stored_timezone
        (some d) commit_ok).1.executions = st.executions := by
  refine ⟨record_habit_execution_raises zone_db utc_now st habit_id s u
    stored_timezone (some d) commit_ok, ?_⟩
  rw [record_habit_execution_raises]

/-- Claim C7 (code evaluation): no record call reaches the commit.  The
resolver `AttributeError` at service line 322 precedes the `try` block at
line 390, so neither the atomic-commit branch nor the rollback branch ever
executes: with a failing commit and with a succeeding commit alike, the call
returns the same uncaught error with the state untouched, never a recorded
execution and never the persistence-failure category the claim describes. -/
theorem record_never_reaches_commit (zone_db : String → Option Zone)
    (utc_now : Int) (st : DBState) (habit_id : Nat)
    (s : HabitExecutionStatus) (u : User) (stored_timezone : Option String)
    (ov : Option Int) :
    record_habit_execution zone_db utc_now st habit_id s u stored_timezone
        ov false =
      (st, Except.error (RecordError.uncaughtAttributeError "timezone")) ∧
    record_habit_execution zone_db utc_now st habit_id s u stored_timezone
        ov true =
      (st, Except.error (RecordError.uncaughtAttributeError "timezone")) :=
  ⟨record_habit_execution_raises zone_db utc_now st habit_id s u
      stored_timezone ov false,
   record_habit_execution_raises zone_db utc_now st habit_id s u
      stored_timezone ov true⟩

/-- Claim C10 (code evaluation): the existence, ownership and activity checks
never run.  The resolver `AttributeError` at service line 322 precedes
`_get_habit_by_id` and both checks, so every call — whatever its habit id,
caller or status — returns the uncaught error; concretely, habit id 99 does
not exist in `stEx10`, yet the call yields that error and not the claimed
not-found error. -/
theorem record_checks_never_run (zone_db : String → Option Zone)
    (utc_now : Int) (st : DBState) (habit_id : Nat)
    (s : HabitExecutionStatus) (u : User) (stored_timezone : Option String)
    (ov : Option Int) (commit_ok : Bool) :
    (record_habit_execution zone_db utc_now st habit_id s u stored_timezone
        ov commit_ok).2 =
      Except.error (RecordError.uncaughtAttributeError "timezone") ∧
    findHabit stEx10.habits 99 = none ∧
    record_habit_execution zdbEx 0 stEx10 99 HabitExecutionStatus.DONE userEx
        (some "Z") none true =
      (stEx10, Except.error (RecordError.uncaughtAttributeError "timezone")) := by
  refine ⟨?_, by decide, record_habit_execution_raises zdbEx 0 stEx10 99
    HabitExecutionStatus.DONE userEx (some "Z") none true⟩
  rw [record_habit_execution_raises]

/-- Claim C8 (code evaluation): the today-resolver raises on every input,
instead of never raising.  The read of the undeclared `user.timezone` at
date_utils.py line 30 sits before the `try` block, so the claimed UTC
fallback and date conversion are dead code: for every zone database, instant,
user and would-be stored value the function raises `AttributeError`, and in
particular an unparseable stored string does not produce the UTC local date
the claim requires. -/
theorem today_resolver_always_raises (zone_db : String → Option Zone)
    (utc_now : Int) (user : User) (stored_timezone : Option String) :
    get_today_date_for_user zone_db utc_now user stored_timezone =
      Except.error (PyError.attributeError "timezone") ∧
    get_today_date_for_user zdbEx 1700000000 userEx (some "Nope") ≠
      Except.ok (utc_zone.localDate 1700000000) := by
  refine ⟨get_today_date_for_user_raises zone_db utc_now user stored_timezone, ?_⟩
  rw [get_today_date_for_user_raises]
  simp

/-- Claim C9 (code evaluation): the due-habit query never returns a result
set.  Building its statement evaluates the class attribute `User.timezone`
(habit_repository.py line 229), which the model does not declare, so every
call — for every timezone string, target time and target date — raises
`AttributeError` instead of returning the set of due habits the claim
describes; the repository test exercising this query fails the same way. -/
theorem notification_query_always_raises (stored_timezone : Nat → Option String)
    (st : DBState) (timezone : String) (target_time : Nat) (target_date : Int) :
    get_habits_for_notification stored_timezone st timezone target_time
        target_date =
      Except.error (PyError.attributeError "timezone") := by
  unfold get_habits_for_notification
  rw [if_neg (by decide)]

/-- Claim C5: evaluation of the reminder tick as the source has it.  The task body
fetches due habits through the repository attribute
`get_habits_needing_notification`, which is not defined on `HabitRepository`
or `BaseRepository`; the resulting `AttributeError` is swallowed by the
blanket exception handler of the task, so every tick emits zero
notifications — for any database state and any set of due habits, never the
one-batched-notification-per-user the specification describes. -/
theorem send_reminders_emits_no_notifications (st : DBState)
    (habits_to_remind : List Habit) :
    send_reminders st habits_to_remind = [] := by
  unfold send_reminders
  rw [if_neg (by decide)]

/-- Claim C6 (code evaluation): the maintenance run resets nothing.  The
candidate SELECT references the non-existent `users.timezone` column, its
execution fails and the blanket handler at tasks.py lines 174-179 rolls
back, so every run returns the state unchanged and affects zero rows;
concretely, in `stExM` habit 1 is active with `current_streak = 2` and no
`DONE` execution on the owner yesterday — the claim requires it reset to
0 — yet the run leaves it at streak 2 (`habitExMissed` verbatim). -/
theorem daily_maintenance_resets_nothing (local_today : String → Int)
    (stored_timezone : Nat → Option String) (st : DBState) :
    daily_maintenance local_today stored_timezone st = (st, 0) ∧
    (daily_maintenance (fun _ => 10) (fun _ => some "Z") stExM).1.habits =
      [habitExMissed, habitExZero] := by
  constructor
  · unfold daily_maintenance
    rw [if_neg (by decide)]
  · rfl

end HabitTracker
